import Mathlib

/-!
Verification of the image-hash dispatch core of
`platform.packages.modules.ExtServices` (`src/native/ImageHashManager.cpp`).

The embedding models `ImageHashManager::generatePHash` and
`ImageHashManager::generateHash` as pure functions.  The caller-owned
output slot `std::array<uint8_t, 8>*` becomes an explicit value that is
passed in and returned, so "the slot is left untouched" is the statement
that the returned slot equals the one passed in.

The external collaborator `PhashFingerprinter::GenerateFingerprint`
(declared in `pHash/phash_fingerprinter.h`, not part of these sources) is
an arbitrary pure function from buffers to 64-bit signed fingerprints; the
embedding is parametric in it, so every theorem below holds for every
possible fingerprinter.
-/

namespace android

/-- Modelled from the spec: `kImageLength` is declared in
`pHash/phash_config.h`, which is missing from these sources.  The spec
fixes the reference algorithm's input to a 32×32 square buffer, and the
unit tests (`ImageHashManager_test.cpp`) call
`generatePHash(buffer, 32, 32, ...)` expecting success and
`generatePHash(buffer, 2, 2, ...)` expecting `-EINVAL`. -/
def kImageLength : Int := 32

/-- The `EINVAL` errno constant from `<errno.h>` (22 on Linux/Android). -/
def EINVAL : Int := 22

/-- A raw pixel buffer (`const uint8_t*`): the byte stored at each index. -/
def Buffer : Type := Nat → Nat

/-- The caller-owned output slot `std::array<uint8_t, 8>`. -/
def HashSlot : Type := Fin 8 → Nat

/-- The external collaborator interface
`PhashFingerprinter::GenerateFingerprint(buffer) -> int64`: a pure
function from a buffer to a 64-bit signed fingerprint. -/
def Fingerprinter : Type := Buffer → Int

/-- The implicit `uint32_t` → `int32_t` conversion applied when
`generateHash` passes `bufferDesc.width` / `bufferDesc.height` (fields of
type `uint32_t` in `AHardwareBuffer_Desc`) to the `int32_t` parameters of
`generatePHash` (two's-complement wrap-around). -/
def uint32ToInt32 (n : Nat) : Int :=
  if n % 2 ^ 32 < 2 ^ 31 then ((n % 2 ^ 32 : Nat) : Int)
  else ((n % 2 ^ 32 : Nat) : Int) - 2 ^ 32

/-- `AHardwareBuffer_Desc` from the NDK: the descriptor of a hardware
buffer.  All fields are unsigned machine integers; only `width` and
`height` are read by the code under verification. -/
structure AHardwareBuffer_Desc where
  width : Nat
  height : Nat
  layers : Nat
  format : Nat
  usage : Nat
  stride : Nat
  rfu0 : Nat
  rfu1 : Nat

/-- The store
`*reinterpret_cast<int64_t*>(outImageHash->data()) = result;`:
all 8 bytes of the slot receive the little-endian (native on the target)
two's-complement representation of the 64-bit signed `result`. -/
def storeInt64LE (result : Int) : HashSlot :=
  fun i => ((result.emod (2 ^ 64)).toNat >>> (8 * i.val)) % 256

namespace ImageHashManager

/-- `ImageHashManager::generatePHash` from
`src/native/ImageHashManager.cpp` lines 28–41: reject any width/height
other than `kImageLength × kImageLength` with `-EINVAL` (leaving the slot
as it was), otherwise run the fingerprinter and store its `int64` result
into the slot, returning `0`. -/
def generatePHash (fp : Fingerprinter) (buffer : Buffer)
    (width height : Int) (outImageHash : HashSlot) : Int × HashSlot :=
  if width ≠ kImageLength ∨ height ≠ kImageLength then
    (-EINVAL, outImageHash)
  else
    (0, storeInt64LE (fp buffer))

/-- `ImageHashManager::generateHash` from
`src/native/ImageHashManager.cpp` lines 43–52: if the algorithm name is
exactly `"phash"`, delegate to `generatePHash` with the descriptor's
width and height; otherwise return `-EINVAL` (leaving the slot as it
was). -/
def generateHash (fp : Fingerprinter) (hashAlgorithm : String)
    (buf : Buffer) (bufferDesc : AHardwareBuffer_Desc)
    (outImageHash : HashSlot) : Int × HashSlot :=
  if hashAlgorithm = "phash" then
    generatePHash fp buf (uint32ToInt32 bufferDesc.width)
      (uint32ToInt32 bufferDesc.height) outImageHash
  else
    (-EINVAL, outImageHash)

end ImageHashManager

/-- The value read back by
`*reinterpret_cast<const int64_t*>(outImageHash.data())` in the unit
tests: the 8 bytes of the slot assembled little-endian. -/
def assembleLE (h : HashSlot) : Nat :=
  h 0 + h 1 * 2 ^ 8 + h 2 * 2 ^ 16 + h 3 * 2 ^ 24 + h 4 * 2 ^ 32 +
    h 5 * 2 ^ 40 + h 6 * 2 ^ 48 + h 7 * 2 ^ 56

/-- For an in-range `uint32` value, the `uint32` → `int32` conversion
sends `n` to `32` exactly when `n = 32`. -/
theorem uint32ToInt32_eq_32_iff (n : Nat) (h : n < 2 ^ 32) :
    uint32ToInt32 n = 32 ↔ n = 32 := by
  unfold uint32ToInt32
  rw [Nat.mod_eq_of_lt h]
  split <;> omega

/-- Claim C1: for every buffer, `generateHash("phash", ...)` on a
descriptor of width and height exactly `kImageLength` returns status `0`,
and the full 8-byte hash is written: the resulting slot is independent of
the slot's prior contents. -/
theorem generateHash_phash_success (fp : Fingerprinter) (buf : Buffer)
    (d : AHardwareBuffer_Desc) (out : HashSlot)
    (hw : d.width = 32) (hh : d.height = 32) :
    (ImageHashManager.generateHash fp "phash" buf d out).1 = 0 ∧
    ∀ out2 : HashSlot,
      (ImageHashManager.generateHash fp "phash" buf d out2).2 =
        (ImageHashManager.generateHash fp "phash" buf d out).2 := by
  simp [ImageHashManager.generateHash, ImageHashManager.generatePHash,
    hw, hh, uint32ToInt32, kImageLength]

/-- Witness for C1 at a concrete 32×32 descriptor. -/
theorem generateHash_phash_success_witness :
    (ImageHashManager.generateHash (fun _ => 0) "phash" (fun _ => 0)
        ⟨32, 32, 1, 1, 0, 32, 0, 0⟩ (fun _ => 0)).1 = 0 ∧
    ∀ out2 : HashSlot,
      (ImageHashManager.generateHash (fun _ => 0) "phash" (fun _ => 0)
          ⟨32, 32, 1, 1, 0, 32, 0, 0⟩ out2).2 =
        (ImageHashManager.generateHash (fun _ => 0) "phash" (fun _ => 0)
            ⟨32, 32, 1, 1, 0, 32, 0, 0⟩ (fun _ => 0)).2 :=
  generateHash_phash_success (fun _ => 0) (fun _ => 0)
    ⟨32, 32, 1, 1, 0, 32, 0, 0⟩ (fun _ => 0) rfl rfl

/-- Claim C2: for every descriptor whose width or height differs from
`kImageLength` (each field in the `uint32` range of the real
`AHardwareBuffer_Desc`), `generateHash("phash", ...)` returns `-EINVAL`
and leaves the output slot exactly as it was, for every buffer and every
fingerprinter. -/
theorem generateHash_phash_wrong_size (fp : Fingerprinter) (buf : Buffer)
    (d : AHardwareBuffer_Desc) (out : HashSlot)
    (hwlt : d.width < 2 ^ 32) (hhlt : d.height < 2 ^ 32)
    (hne : d.width ≠ 32 ∨ d.height ≠ 32) :
    ImageHashManager.generateHash fp "phash" buf d out = (-EINVAL, out) := by
  have hw := uint32ToInt32_eq_32_iff d.width hwlt
  have hh := uint32ToInt32_eq_32_iff d.height hhlt
  simp only [ImageHashManager.generateHash, ImageHashManager.generatePHash,
    kImageLength, if_pos rfl]
  have hcond : uint32ToInt32 d.width ≠ 32 ∨ uint32ToInt32 d.height ≠ 32 := by
    tauto
  rw [if_pos hcond]
  simp

/-- Witness for C2 at the concrete 2×2 descriptor exercised by the unit
test `CreatePHash`. -/
theorem generateHash_phash_wrong_size_witness :
    ImageHashManager.generateHash (fun _ => 0) "phash" (fun _ => 0)
        ⟨2, 2, 1, 1, 0, 2, 0, 0⟩ (fun _ => 0) =
      (-EINVAL, fun _ => 0) :=
  generateHash_phash_wrong_size (fun _ => 0) (fun _ => 0)
    ⟨2, 2, 1, 1, 0, 2, 0, 0⟩ (fun _ => 0) (by norm_num) (by norm_num)
    (Or.inl (by norm_num))

/-- Claim C3: `generateHash` writes to the output slot iff the returned
status is `0`: the returned slot equals the full 8-byte little-endian
store of the fingerprint when the status is `0`, and equals the untouched
input slot otherwise — there is no partial write. -/
theorem generateHash_write_iff_success (fp : Fingerprinter)
    (name : String) (buf : Buffer) (d : AHardwareBuffer_Desc)
    (out : HashSlot) :
    ImageHashManager.generateHash fp name buf d out =
      ((ImageHashManager.generateHash fp name buf d out).1,
        if (ImageHashManager.generateHash fp name buf d out).1 = 0 then
          storeInt64LE (fp buf)
        else out) := by
  simp only [ImageHashManager.generateHash, ImageHashManager.generatePHash]
  split
  · split
    · simp [EINVAL]
    · simp
  · simp [EINVAL]

/-- Claim C4: for every algorithm name other than the registered
`"phash"`, `generateHash` returns `-EINVAL` with the slot untouched, for
every buffer and descriptor, and no algorithm implementation is invoked:
the result is the same for every pair of fingerprinters. -/
theorem generateHash_unknown_name (fp₁ fp₂ : Fingerprinter)
    (name : String) (buf : Buffer) (d : AHardwareBuffer_Desc)
    (out : HashSlot) (h : name ≠ "phash") :
    ImageHashManager.generateHash fp₁ name buf d out = (-EINVAL, out) ∧
    ImageHashManager.generateHash fp₁ name buf d out =
      ImageHashManager.generateHash fp₂ name buf d out := by
  simp [ImageHashManager.generateHash, h]

/-- Witness for C4 at the concrete unrecognized name `"PHASH"` (the
comparison is case-sensitive). -/
theorem generateHash_unknown_name_witness :
    ImageHashManager.generateHash (fun _ => 0) "PHASH" (fun _ => 0)
        ⟨32, 32, 1, 1, 0, 32, 0, 0⟩ (fun _ => 0) =
      (-EINVAL, fun _ => 0) ∧
    ImageHashManager.generateHash (fun _ => 0) "PHASH" (fun _ => 0)
        ⟨32, 32, 1, 1, 0, 32, 0, 0⟩ (fun _ => 0) =
      ImageHashManager.generateHash (fun _ => 1) "PHASH" (fun _ => 0)
        ⟨32, 32, 1, 1, 0, 32, 0, 0⟩ (fun _ => 0) :=
  generateHash_unknown_name (fun _ => 0) (fun _ => 1) "PHASH" (fun _ => 0)
    ⟨32, 32, 1, 1, 0, 32, 0, 0⟩ (fun _ => 0) (by decide)

/-- Counterexample to claim C5: at a concrete buffer, descriptor and
slot, `generateHash("wavelet", ...)` returns `-EINVAL`, not the success
status `0` the claim promises, whatever the fingerprinter. -/
theorem generateHash_wavelet_not_success :
    (ImageHashManager.generateHash (fun _ => 0) "wavelet" (fun _ => 0)
        ⟨32, 32, 1, 1, 0, 32, 0, 0⟩ (fun _ => 0)).1 = -EINVAL ∧
    (-EINVAL : Int) ≠ 0 := by
  constructor
  · rfl
  · decide

/-- Claim C5 as amended: `"wavelet"` is not a registered algorithm name
in this code; `generateHash("wavelet", ...)` returns `-EINVAL` and leaves
the output slot untouched for every buffer, descriptor, slot and
fingerprinter. -/
theorem generateHash_wavelet_einval (fp : Fingerprinter) (buf : Buffer)
    (d : AHardwareBuffer_Desc) (out : HashSlot) :
    ImageHashManager.generateHash fp "wavelet" buf d out = (-EINVAL, out) := by
  simp [ImageHashManager.generateHash]

/-- Claim C6: `generateHash("phash", ...)` is deterministic: two calls on
byte-identical buffers and equal descriptors return the same status and
the same slot contents. -/
theorem generateHash_phash_deterministic (fp : Fingerprinter)
    (buf₁ buf₂ : Buffer) (d₁ d₂ : AHardwareBuffer_Desc) (out : HashSlot)
    (hb : ∀ i, buf₁ i = buf₂ i) (hd : d₁ = d₂) :
    ImageHashManager.generateHash fp "phash" buf₁ d₁ out =
      ImageHashManager.generateHash fp "phash" buf₂ d₂ out := by
  have hbuf : buf₁ = buf₂ := funext hb
  rw [hbuf, hd]

/-- Witness for C6 at a concrete pair of byte-identical buffers. -/
theorem generateHash_phash_deterministic_witness :
    ImageHashManager.generateHash (fun _ => 7) "phash" (fun _ => 3)
        ⟨32, 32, 1, 1, 0, 32, 0, 0⟩ (fun _ => 0) =
      ImageHashManager.generateHash (fun _ => 7) "phash" (fun _ => 3)
        ⟨32, 32, 1, 1, 0, 32, 0, 0⟩ (fun _ => 0) :=
  generateHash_phash_deterministic (fun _ => 7) (fun _ => 3) (fun _ => 3)
    ⟨32, 32, 1, 1, 0, 32, 0, 0⟩ ⟨32, 32, 1, 1, 0, 32, 0, 0⟩ (fun _ => 0)
    (fun _ => rfl) rfl

/-- Claim C7: the zero-length algorithm name is handled totally:
`generateHash("", ...)` is defined on every buffer, descriptor and slot
and returns `-EINVAL` with the slot untouched. -/
theorem generateHash_empty_name (fp : Fingerprinter) (buf : Buffer)
    (d : AHardwareBuffer_Desc) (out : HashSlot) :
    ImageHashManager.generateHash fp "" buf d out = (-EINVAL, out) := by
  simp [ImageHashManager.generateHash]

/-- Splitting a 64-bit value into its 8 little-endian bytes and
reassembling them recovers the value. -/
theorem assembleLE_bytes (m : Nat) (h : m < 2 ^ 64) :
    assembleLE (fun i => (m >>> (8 * i.val)) % 256) = m := by
  show (m >>> (8 * 0)) % 256 + (m >>> (8 * 1)) % 256 * 2 ^ 8 +
      (m >>> (8 * 2)) % 256 * 2 ^ 16 + (m >>> (8 * 3)) % 256 * 2 ^ 24 +
      (m >>> (8 * 4)) % 256 * 2 ^ 32 + (m >>> (8 * 5)) % 256 * 2 ^ 40 +
      (m >>> (8 * 6)) % 256 * 2 ^ 48 + (m >>> (8 * 7)) % 256 * 2 ^ 56 = m
  simp only [Nat.shiftRight_eq_div_pow]
  norm_num
  omega

/-- Reassembling the 8 stored bytes little-endian recovers the
two's-complement value of the stored 64-bit signed integer. -/
theorem assembleLE_storeInt64LE (r : Int) :
    assembleLE (storeInt64LE r) = (r.emod (2 ^ 64)).toNat := by
  have h1 : 0 ≤ r.emod (2 ^ 64) := Int.emod_nonneg r (by norm_num)
  have h2 : r.emod (2 ^ 64) < 2 ^ 64 := Int.emod_lt_of_pos r (by norm_num)
  have hlt : (r.emod (2 ^ 64)).toNat < 2 ^ 64 := by omega
  exact assembleLE_bytes _ hlt

/-- Claim C8: on success of the `"phash"` path, the 8 bytes written to
the output slot are exactly the little-endian representation of the
64-bit signed fingerprint returned by the fingerprinter: reading them
back as a little-endian integer gives the fingerprint's two's-complement
value modulo `2^64`. -/
theorem generateHash_phash_bytes_le (fp : Fingerprinter) (buf : Buffer)
    (d : AHardwareBuffer_Desc) (out : HashSlot)
    (hw : d.width = 32) (hh : d.height = 32) :
    (ImageHashManager.generateHash fp "phash" buf d out).1 = 0 ∧
    ((assembleLE (ImageHashManager.generateHash fp "phash" buf d out).2 :
        Int)) = (fp buf).emod (2 ^ 64) := by
  have hsnd :
      ImageHashManager.generateHash fp "phash" buf d out =
        (0, storeInt64LE (fp buf)) := by
    simp [ImageHashManager.generateHash, ImageHashManager.generatePHash,
      hw, hh, uint32ToInt32, kImageLength]
  rw [hsnd]
  refine ⟨rfl, ?_⟩
  rw [assembleLE_storeInt64LE]
  exact Int.toNat_of_nonneg (Int.emod_nonneg (fp buf) (by norm_num))

/-- Witness for C8 at a concrete fingerprinter and 32×32 descriptor. -/
theorem generateHash_phash_bytes_le_witness :
    (ImageHashManager.generateHash (fun _ => -2) "phash" (fun _ => 0)
        ⟨32, 32, 1, 1, 0, 32, 0, 0⟩ (fun _ => 0)).1 = 0 ∧
    ((assembleLE (ImageHashManager.generateHash (fun _ => -2) "phash"
        (fun _ => 0) ⟨32, 32, 1, 1, 0, 32, 0, 0⟩ (fun _ => 0)).2 : Int)) =
      (-2 : Int).emod (2 ^ 64) :=
  generateHash_phash_bytes_le (fun _ => -2) (fun _ => 0)
    ⟨32, 32, 1, 1, 0, 32, 0, 0⟩ (fun _ => 0) rfl rfl

/-- Claim C9: the only statuses `generateHash` can return are `0` and
`-EINVAL`, for every fingerprinter, name, buffer, descriptor and slot. -/
theorem generateHash_status_space (fp : Fingerprinter) (name : String)
    (buf : Buffer) (d : AHardwareBuffer_Desc) (out : HashSlot) :
    (ImageHashManager.generateHash fp name buf d out).1 = 0 ∨
    (ImageHashManager.generateHash fp name buf d out).1 = -EINVAL := by
  simp only [ImageHashManager.generateHash, ImageHashManager.generatePHash]
  split
  · split
    · simp
    · simp
  · simp

/-- Claim C10: the status and output of `generateHash` depend only on the
algorithm name, the buffer contents, and the descriptor's width and
height: two calls agreeing on those but differing in the descriptor's
`layers`, `format`, `usage`, `stride` or reserved fields are
indistinguishable. -/
theorem generateHash_ignores_other_desc_fields (fp : Fingerprinter)
    (name : String) (buf : Buffer) (d₁ d₂ : AHardwareBuffer_Desc)
    (out : HashSlot) (hw : d₁.width = d₂.width)
    (hh : d₁.height = d₂.height) :
    ImageHashManager.generateHash fp name buf d₁ out =
      ImageHashManager.generateHash fp name buf d₂ out := by
  simp only [ImageHashManager.generateHash, hw, hh]

/-- Witness for C10 at two concrete descriptors differing in `layers`,
`format`, `usage` and `stride` but agreeing on width and height. -/
theorem generateHash_ignores_other_desc_fields_witness :
    ImageHashManager.generateHash (fun _ => 5) "phash" (fun _ => 1)
        ⟨32, 32, 1, 1, 0, 32, 0, 0⟩ (fun _ => 9) =
      ImageHashManager.generateHash (fun _ => 5) "phash" (fun _ => 1)
        ⟨32, 32, 4, 2, 3, 64, 1, 1⟩ (fun _ => 9) :=
  generateHash_ignores_other_desc_fields (fun _ => 5) "phash" (fun _ => 1)
    ⟨32, 32, 1, 1, 0, 32, 0, 0⟩ ⟨32, 32, 4, 2, 3, 64, 1, 1⟩ (fun _ => 9)
    rfl rfl

end android
